import Mathlib

/-!
Verification of the natural-language specification of the `vulkan-test`
repository (Rust, vulkano examples) against its source code, via a shallow
embedding of the example programs in Lean 4.

The repository holds four example programs:
  * `src/main.rs`              - compute-dispatch timing example (a u32 buffer
                                 `0..65536` is transformed on the GPU and the
                                 result compared to a CPU transform);
  * `examples/compute-mandelbrot/main.rs` - compute shader rendering a
                                 mandelbrot image, saved as `mandelbrot.png`;
  * `examples/images/main.rs`  - image clear + buffer-to-image copy, saved as
                                 `image.png`;
  * `examples/graphics/main.rs` - windowed triangle rendering with a swapchain,
                                 per-image fences and resize-driven recreation.

Pure fragments (the pixel iterator, the `Triangle` type, queue-family
selection, the CPU transform) are embedded as Lean functions.  The
straight-line examples are additionally embedded as traces of the
synchronisation-relevant operations they perform, in source order.  The
windowed example's event loop body is embedded as a step function on an
explicit state, parameterised by the external inputs of one iteration
(window size, acquire result, flush result).
-/

/-! ## Operation traces of the straight-line examples

Each example's `main` is a straight-line sequence of library calls.  `Op`
names the observable / synchronisation-relevant operations; each trace below
transcribes one `main` in source order. -/

/-- Observable operations performed by the straight-line example programs. -/
inductive Op where
  | vkSetup
  | createBuffer
  | createImage
  | buildCommandBuffer
  | submitExecute
  | signalFenceAndFlush
  | fenceWait
  | readBuffer
  | savePng (name : String)
  | printTimings
  | assertGpuEqCpu
  | runEventLoop
  deriving DecidableEq, Repr

/-- Trace of `src/main.rs` (compute-dispatch timing example), in source
order: setup, data buffer, command buffer build, submit, fence signal+flush,
`future.wait(None)`, CPU timing printout, `data_buffer.read()`, the
element-wise `assert_eq!` loop. -/
def mainOps : List Op :=
  [ .vkSetup, .createBuffer, .buildCommandBuffer, .submitExecute,
    .signalFenceAndFlush, .fenceWait, .printTimings, .readBuffer,
    .assertGpuEqCpu ]

/-- Trace of `examples/compute-mandelbrot/main.rs`, in source order. -/
def mandelbrotOps : List Op :=
  [ .vkSetup, .createImage, .createBuffer, .buildCommandBuffer,
    .submitExecute, .signalFenceAndFlush, .fenceWait, .readBuffer,
    .savePng "mandelbrot.png" ]

/-- Trace of `examples/images/main.rs`, in source order. -/
def imagesOps : List Op :=
  [ .vkSetup, .createImage, .createBuffer, .buildCommandBuffer,
    .submitExecute, .signalFenceAndFlush, .fenceWait, .readBuffer,
    .savePng "image.png" ]

/-- Trace of `examples/graphics/main.rs`: after setup it enters
`event_loop.run` and never returns. -/
def graphicsOps : List Op :=
  [ .vkSetup, .createBuffer, .buildCommandBuffer, .runEventLoop ]

/-- Does an operation write a PNG file? -/
def Op.isSavePng : Op → Bool
  | .savePng _ => true
  | _ => false

/-- A trace produces a PNG file iff it contains a `savePng` operation. -/
def producesPng (tr : List Op) : Bool := tr.any Op.isSavePng

/-- A trace opens a window iff it enters the event loop. -/
def opensWindow (tr : List Op) : Bool := tr.contains .runEventLoop

/-! ## The compute-dispatch timing example (`src/main.rs`)

The data buffer is created from the iterator `0..65536_u32`.  The CPU-side
transform is the loop `for n in cpu_buffer.iter_mut() { *n *= 12; }` over a
collected copy of the same iterator, with `u32` wrap-around semantics. -/

/-- Number of elements in `data_buffer` (`0..65536_u32`). -/
def dataLen : Nat := 65536

/-- Initial contents of `data_buffer`: element `i` is `i` (from the
iterator `0..65536_u32`). -/
def dataBufferInit (i : Nat) : Nat := i

/-- The CPU transform from `src/main.rs`: `*n *= 12` on a `u32`
(wrap-around at `2^32`). -/
def cpuTransform (n : Nat) : Nat := n * 12 % 2 ^ 32

/-- Modelled from the spec: the compute shader (module `cs`, whose GLSL
source is not part of the repository sources available here) multiplies each
buffer element by 12, as a `u32`; the spec states the GPU applies the same
transform the CPU applies (multiplication by 12). -/
def gpuShaderTransform (n : Nat) : Nat := n * 12 % 2 ^ 32

/-- Contents of `data_buffer` after the GPU dispatch completes. -/
def gpuComputed (i : Nat) : Nat := gpuShaderTransform (dataBufferInit i)

/-- Contents of `cpu_buffer` after the CPU loop. -/
def cpuComputed (i : Nat) : Nat := cpuTransform (dataBufferInit i)

/-- Shared helper: element-wise agreement of GPU and CPU results, and the
explicit value `12 * i` for in-range indices. -/
theorem gpu_eq_cpu (i : Nat) (h : i < dataLen) :
    gpuComputed i = cpuComputed i ∧ cpuComputed i = 12 * i := by
  constructor
  · rfl
  · have hd : i < 65536 := h
    unfold cpuComputed cpuTransform dataBufferInit
    omega

/-! ## The images example pixel iterator (`examples/images/main.rs`)

```rust
let pixel_data_iter = (0..1024 * 1024 * 4).enumerate().map(|(i, _)| {
    match i % 4 {
        0 => 255, 1 => 0, 2 => 0, 3 => 255,
        _ => unreachable!("..."),
    }
});
```
`none` models the `unreachable!` arm. -/

/-- Byte `i` of the pixel data iterator; `none` is the `unreachable!` arm. -/
def pixelData (i : Nat) : Option Nat :=
  match i % 4 with
  | 0 => some 255
  | 1 => some 0
  | 2 => some 0
  | 3 => some 255
  | _ => none

/-- Total number of bytes the pixel iterator yields. -/
def pixelDataLen : Nat := 1024 * 1024 * 4

/-! ## The `Triangle` type (`examples/graphics/main.rs`)

`Vertex` carries a `position`; the position payload type is abstracted (in
Rust it is `[f32; 2]`, but `Triangle::new` and `move_verticies_out` only move
values around and never compute with them). -/

/-- A vertex: the Rust `Vertex { position: [f32; 2] }`, with the position
payload abstracted to a type parameter. -/
structure Vtx (α : Type) where
  position : α
  deriving DecidableEq, Repr

/-- Rust `Triangle(pub Vertex, pub Vertex, pub Vertex)`. -/
structure Triangle (α : Type) where
  fst : Vtx α
  snd : Vtx α
  thd : Vtx α
  deriving DecidableEq, Repr

/-- Rust `Triangle::new(point_1, point_2, point_3)`. -/
def Triangle.new (p1 p2 p3 : α) : Triangle α :=
  ⟨⟨p1⟩, ⟨p2⟩, ⟨p3⟩⟩

/-- Rust `Triangle::move_verticies_out(self) -> Vec<Vertex>`:
`vec![self.0, self.1, self.2]`. -/
def Triangle.move_verticies_out (t : Triangle α) : List (Vtx α) :=
  [t.fst, t.snd, t.thd]

/-! ## Queue-family and device selection

The three non-windowed examples all select
`queue_family_properties().iter().enumerate().position(|(_i, q)| q.queue_flags.contains(QueueFlags::GRAPHICS))`.
`position` below embeds Rust's `Iterator::position` (index of the first
element satisfying the predicate). -/

/-- Queue flags of a queue family; only the bit the examples inspect
(`GRAPHICS`) is modelled. -/
structure QueueFlags where
  graphics : Bool
  deriving DecidableEq, Repr

/-- Rust `Iterator::position`: index of the first element satisfying `p`. -/
def position (p : α → Bool) : List α → Option Nat
  | [] => none
  | a :: l => if p a then some 0 else (position p l).map (· + 1)

/-- Queue-family selection of the non-windowed examples: first family whose
flags contain `GRAPHICS`. -/
def selectQueueFamily (fams : List QueueFlags) : Option Nat :=
  position (fun q => q.graphics) fams

/-- Specification of `position`: `position p l = some i` means: `i` is in range, element `i` satisfies
`p`, and no earlier element does. -/
theorem position_spec (p : α → Bool) (l : List α) (i : Nat)
    (h : position p l = some i) :
    (∃ a, l.get? i = some a ∧ p a = true) ∧
      ∀ j, j < i → ∀ b, l.get? j = some b → p b = false := by
  induction l generalizing i with
  | nil => simp [position] at h
  | cons a l ih =>
    by_cases hp : p a
    · simp [position, hp] at h
      subst h
      exact ⟨⟨a, rfl, hp⟩, by omega⟩
    · simp [position, hp] at h
      obtain ⟨k, hk, rfl⟩ := h
      obtain ⟨⟨b, hb, hpb⟩, hearlier⟩ := ih k hk
      refine ⟨⟨b, by simpa using hb, hpb⟩, ?_⟩
      intro j hj c hc
      match j with
      | 0 =>
        simp at hc
        subst hc
        simpa using hp
      | j + 1 =>
        exact hearlier j (by omega) c (by simpa using hc)

/-! ### The windowed example's device/queue-family selection

```rust
let (physical_device, queue_family_index) = instance
    .enumerate_physical_devices().expect(...)
    .filter(|p| p.supported_extensions().contains(&device_extensions))
    .filter_map(|p| {
        p.queue_family_properties().iter().enumerate()
            .position(|(i, q)| {
                q.queue_flags.contains(QueueFlags::GRAPHICS)
                    && p.surface_support(i as u32, &surface).unwrap_or(false)
            })
            .map(|q| (p, q as u32))
    })
    .min_by_key(|(p, _)| match p.properties().device_type { ... })
    .expect("no device available");
```
with `device_extensions = DeviceExtensions { khr_swapchain: true, .. }`. -/

/-- Vulkan physical device types, as matched in the windowed example. -/
inductive DeviceType where
  | discreteGpu
  | integratedGpu
  | virtualGpu
  | cpu
  | other
  deriving DecidableEq, Repr

/-- The `min_by_key` ranking from the windowed example. -/
def DeviceType.rank : DeviceType → Nat
  | .discreteGpu => 0
  | .integratedGpu => 1
  | .virtualGpu => 2
  | .cpu => 3
  | .other => 4

/-- One queue family as the windowed example inspects it: its `GRAPHICS`
flag and the result of `surface_support` for this family (`none` models an
errored call, handled by `unwrap_or(false)`). -/
structure QueueFam where
  graphics : Bool
  surfaceSupport : Option Bool
  deriving DecidableEq, Repr

/-- One physical device as the windowed example inspects it. -/
structure PhysDev where
  khrSwapchain : Bool
  families : List QueueFam
  deviceType : DeviceType
  deriving DecidableEq, Repr

/-- The closure passed to `position` in the windowed example:
`q.queue_flags.contains(GRAPHICS) && p.surface_support(i, &surface).unwrap_or(false)`. -/
def familyOk (q : QueueFam) : Bool :=
  q.graphics && q.surfaceSupport.getD false

/-- The `filter_map` closure: the device paired with the index of its first
acceptable queue family, if any. -/
def deviceCandidate (p : PhysDev) : Option (PhysDev × Nat) :=
  (position familyOk p.families).map (fun i => (p, i))

/-- Rust `Iterator::min_by_key` (first element among equal minima). -/
def minByKey (key : α → Nat) : List α → Option α
  | [] => none
  | a :: l =>
    match minByKey key l with
    | none => some a
    | some b => if key a ≤ key b then some a else some b

/-- Device/queue-family selection of the windowed example. -/
def selectDeviceAndFamily (devs : List PhysDev) : Option (PhysDev × Nat) :=
  minByKey (fun c => c.1.deviceType.rank)
    ((devs.filter (fun p => p.khrSwapchain)).filterMap deviceCandidate)

/-- The function `minByKey` returns an element of the list. -/
theorem minByKey_mem (key : α → Nat) (l : List α) (a : α)
    (h : minByKey key l = some a) : a ∈ l := by
  induction l generalizing a with
  | nil => simp [minByKey] at h
  | cons b l ih =>
    simp only [minByKey] at h
    cases hm : minByKey key l with
    | none =>
      rw [hm] at h
      simp at h
      simp [h]
    | some c =>
      rw [hm] at h
      by_cases hk : key b ≤ key c
      · simp [hk] at h
        simp [h]
      · simp [hk] at h
        subst h
        exact List.mem_cons_of_mem _ (ih _ hm)

/-! ## The windowed example's event loop (`examples/graphics/main.rs`)

The closure passed to `event_loop.run` is embedded as a step function on an
explicit state.  One `MainEventsCleared` iteration depends on external
inputs: the window's current inner size, the result of
`swapchain::acquire_next_image` (image index and suboptimal flag, or an
error, which the code turns into a `panic!`), and the result of
`then_signal_fence_and_flush` (ok / `VulkanError::OutOfDate` / other error).
Fences are identified by numbers; `nextFence` supplies a fresh identifier
for the fence produced by a successful flush.  For each GPU resource that
resize recreates, the state records the window dimensions it was last built
from. -/

/-- Result of `then_signal_fence_and_flush` in one frame. -/
inductive FlushResult where
  | ok
  | outOfDate
  | otherErr
  deriving DecidableEq, Repr

/-- External inputs of one `MainEventsCleared` iteration. -/
structure FrameInput where
  newDims : Nat × Nat
  acquireOk : Bool
  imageI : Nat
  suboptimal : Bool
  flush : FlushResult
  deriving DecidableEq, Repr

/-- The mutable state captured by the event-loop closure. -/
structure LoopState where
  fences : List (Option Nat)
  previousFenceI : Nat
  recreateSwapchain : Bool
  windowResized : Bool
  swapchainExtent : Nat × Nat
  framebufferExtent : Nat × Nat
  viewportExtent : Nat × Nat
  pipelineExtent : Nat × Nat
  cmdBufsExtent : Nat × Nat
  nextFence : Nat
  deriving DecidableEq, Repr

/-- Initial loop state, from the setup code before `event_loop.run`:
`fences = vec![None; frames_in_flight]` with
`frames_in_flight = images.len()`, `previous_fence_i = 0`, both flags
false, swapchain and framebuffers built from the window's initial inner
size, viewport/pipeline/command buffers built with the hard-coded initial
viewport extent `[1024.0, 1024.0]`. -/
def initLoopState (numImages : Nat) (windowDims : Nat × Nat) : LoopState :=
  { fences := List.replicate numImages none
    previousFenceI := 0
    recreateSwapchain := false
    windowResized := false
    swapchainExtent := windowDims
    framebufferExtent := windowDims
    viewportExtent := (1024, 1024)
    pipelineExtent := (1024, 1024)
    cmdBufsExtent := (1024, 1024)
    nextFence := 0 }

/-- The window events the closure matches on. -/
inductive LoopEvent where
  | closeRequested
  | resized
  | mainEventsCleared
  | other
  deriving DecidableEq, Repr

/-- GPU-side actions one iteration performs, in order. -/
inductive GpuAction where
  | recreateSwapchainAct (d : Nat × Nat)
  | recreateFramebuffersAct (d : Nat × Nat)
  | rebuildPipelineAct (d : Nat × Nat)
  | recordCommandBuffersAct (d : Nat × Nat)
  | acquireImage (i : Nat)
  | waitFence (f : Nat)
  | submitDraw (i : Nat)
  | presentImage (i : Nat)
  deriving DecidableEq, Repr

/-- Result of one event-loop iteration: the loop exits
(`control_flow.set_exit()`), the process panics, or the closure returns with
an updated state, having performed a list of actions. -/
inductive StepResult where
  | exited
  | panicked
  | next (s : LoopState) (tr : List GpuAction)
  deriving DecidableEq, Repr

/-- Lines 362-398: the swapchain/framebuffer/pipeline/command-buffer
recreation block at the top of `MainEventsCleared`, with `d` the window's
current inner size. -/
def recreationPhase (s : LoopState) (d : Nat × Nat) : LoopState × List GpuAction :=
  if s.recreateSwapchain || s.windowResized then
    let s1 := { s with recreateSwapchain := false, swapchainExtent := d }
    if s.windowResized then
      ({ s1 with
          windowResized := false
          framebufferExtent := d
          viewportExtent := d
          pipelineExtent := d
          cmdBufsExtent := d },
        [.recreateSwapchainAct d, .recreateFramebuffersAct d,
          .rebuildPipelineAct d, .recordCommandBuffersAct d])
    else (s1, [.recreateSwapchainAct d])
  else (s, [])

/-- Lines 400-446: acquire, per-image fence wait, submit, present, flush,
and fence bookkeeping.  `acquire_next_image` errors `panic!`; indexing
`fences[...]` out of bounds panics; a flush error is handled
(`OutOfDate` requests swapchain recreation, any other error is printed) and
the closure continues with `None` stored in the image's fence slot. -/
def applySuboptimal (s : LoopState) (b : Bool) : LoopState :=
  if b then { s with recreateSwapchain := true } else s

/-- Actions of `if let Some(image_fence) = &fences[image_i as usize] {
image_fence.wait(None).unwrap(); }`. -/
def waitActions : Option Nat → List GpuAction
  | some f => [.waitFence f]
  | none => []

def framePhase (s : LoopState) (inp : FrameInput) : StepResult :=
  if inp.acquireOk = false then .panicked
  else
    match (applySuboptimal s inp.suboptimal).fences.get? inp.imageI,
        (applySuboptimal s inp.suboptimal).fences.get?
          (applySuboptimal s inp.suboptimal).previousFenceI with
    | some slot, some _ =>
      StepResult.next
        (match inp.flush with
          | .ok =>
            { applySuboptimal s inp.suboptimal with
                fences :=
                  (applySuboptimal s inp.suboptimal).fences.set inp.imageI
                    (some (applySuboptimal s inp.suboptimal).nextFence)
                nextFence := (applySuboptimal s inp.suboptimal).nextFence + 1
                previousFenceI := inp.imageI }
          | .outOfDate =>
            { applySuboptimal s inp.suboptimal with
                fences :=
                  (applySuboptimal s inp.suboptimal).fences.set inp.imageI none
                recreateSwapchain := true
                previousFenceI := inp.imageI }
          | .otherErr =>
            { applySuboptimal s inp.suboptimal with
                fences :=
                  (applySuboptimal s inp.suboptimal).fences.set inp.imageI none
                previousFenceI := inp.imageI })
        (.acquireImage inp.imageI ::
          (waitActions slot ++ [.submitDraw inp.imageI, .presentImage inp.imageI]))
    | _, _ => .panicked

/-- One invocation of the event-loop closure. -/
def loopStep (s : LoopState) (e : LoopEvent) (inp : FrameInput) : StepResult :=
  match e with
  | .closeRequested => .exited
  | .resized => .next { s with windowResized := true } []
  | .other => .next s []
  | .mainEventsCleared =>
    match framePhase (recreationPhase s inp.newDims).1 inp with
    | .panicked => .panicked
    | .exited => .exited
    | .next s2 tr2 => .next s2 ((recreationPhase s inp.newDims).2 ++ tr2)

/-- The recreation phase never touches the fence vector, the previous-fence
index or the fence counter. -/
theorem recreationPhase_fences (s : LoopState) (d : Nat × Nat) :
    (recreationPhase s d).1.fences = s.fences ∧
      (recreationPhase s d).1.previousFenceI = s.previousFenceI ∧
      (recreationPhase s d).1.nextFence = s.nextFence := by
  unfold recreationPhase
  by_cases h2 : s.windowResized
  · simp [h2]
  · by_cases hr : s.recreateSwapchain <;> simp [h2, hr]

/-- The helper `applySuboptimal` only (possibly) sets the `recreateSwapchain` flag. -/
theorem applySuboptimal_spec (s : LoopState) (b : Bool) :
    (applySuboptimal s b).fences = s.fences ∧
      (applySuboptimal s b).previousFenceI = s.previousFenceI ∧
      (applySuboptimal s b).nextFence = s.nextFence ∧
      (applySuboptimal s b).windowResized = s.windowResized ∧
      (applySuboptimal s b).swapchainExtent = s.swapchainExtent ∧
      (applySuboptimal s b).framebufferExtent = s.framebufferExtent ∧
      (applySuboptimal s b).viewportExtent = s.viewportExtent ∧
      (applySuboptimal s b).pipelineExtent = s.pipelineExtent ∧
      (applySuboptimal s b).cmdBufsExtent = s.cmdBufsExtent ∧
      (applySuboptimal s b).recreateSwapchain = (s.recreateSwapchain || b) := by
  cases b <;> simp [applySuboptimal]

/-- Inversion of a non-panicking frame phase: the acquire succeeded, the
updated state stores a fence slot value at the acquired image index, keeps
every recreation-related field, moves `previousFenceI` to the image index,
requests recreation exactly when the acquire was suboptimal or the flush
returned `OutOfDate`, and the action trace waits on the image's stored
fence (when there is one) before submitting and presenting. -/
theorem framePhase_inv (s : LoopState) (inp : FrameInput) (s' : LoopState)
    (tr : List GpuAction) (h : framePhase s inp = .next s' tr) :
    inp.acquireOk = true ∧
      (∃ v, s'.fences = s.fences.set inp.imageI v) ∧
      s'.previousFenceI = inp.imageI ∧
      s'.windowResized = s.windowResized ∧
      s'.swapchainExtent = s.swapchainExtent ∧
      s'.framebufferExtent = s.framebufferExtent ∧
      s'.viewportExtent = s.viewportExtent ∧
      s'.pipelineExtent = s.pipelineExtent ∧
      s'.cmdBufsExtent = s.cmdBufsExtent ∧
      s'.recreateSwapchain
        = (s.recreateSwapchain || inp.suboptimal || decide (inp.flush = .outOfDate)) ∧
      (∃ slot, s.fences.get? inp.imageI = some slot ∧
        tr = .acquireImage inp.imageI ::
          (waitActions slot ++ [.submitDraw inp.imageI, .presentImage inp.imageI])) := by
  obtain ⟨hf, hp, hn, hw, hsw, hfb, hvp, hpl, hcb, hrc⟩ :=
    applySuboptimal_spec s inp.suboptimal
  unfold framePhase at h
  by_cases ha : inp.acquireOk
  · rw [if_neg (by simp [ha])] at h
    rcases hg1 : (applySuboptimal s inp.suboptimal).fences.get? inp.imageI with
        _ | slot
    · rw [hg1] at h
      simp at h
    · rw [hg1] at h
      rcases hg2 : (applySuboptimal s inp.suboptimal).fences.get?
          (applySuboptimal s inp.suboptimal).previousFenceI with _ | pslot
      · rw [hg2] at h
        simp at h
      · rw [hg2] at h
        simp only [StepResult.next.injEq] at h
        obtain ⟨hs', htr⟩ := h
        subst hs'
        subst htr
        refine ⟨ha, ?_, ?_, ?_, ?_, ?_, ?_, ?_, ?_, ?_, ?_⟩
        · cases inp.flush
          · exact ⟨some s.nextFence, by simp [hf, hn]⟩
          · exact ⟨none, by simp [hf]⟩
          · exact ⟨none, by simp [hf]⟩
        · cases inp.flush <;> simp
        · cases inp.flush <;> simp [hw]
        · cases inp.flush <;> simp [hsw]
        · cases inp.flush <;> simp [hfb]
        · cases inp.flush <;> simp [hvp]
        · cases inp.flush <;> simp [hpl]
        · cases inp.flush <;> simp [hcb]
        · cases inp.flush <;> simp [hrc]
        · exact ⟨slot, by rw [← hf]; exact hg1, rfl⟩
  · rw [if_pos (by simp [ha])] at h
    simp at h

/-- The recreation block always leaves both flags cleared: it only runs when
one of them is set, and it resets `recreate_swapchain` on entry and
`window_resized` inside its resize branch. -/
theorem recreationPhase_flags (s : LoopState) (d : Nat × Nat) :
    (recreationPhase s d).1.recreateSwapchain = false ∧
      (recreationPhase s d).1.windowResized = false := by
  unfold recreationPhase
  by_cases h2 : s.windowResized
  · simp [h2]
  · by_cases hr : s.recreateSwapchain <;> simp [h2, hr]

/-- When a resize was recorded, the recreation block rebuilds everything
from the window's current size `d` and clears both flags. -/
theorem recreationPhase_resized (s : LoopState) (d : Nat × Nat)
    (h : s.windowResized = true) :
    recreationPhase s d =
      ({ s with
          recreateSwapchain := false
          windowResized := false
          swapchainExtent := d
          framebufferExtent := d
          viewportExtent := d
          pipelineExtent := d
          cmdBufsExtent := d },
        [.recreateSwapchainAct d, .recreateFramebuffersAct d,
          .rebuildPipelineAct d, .recordCommandBuffersAct d]) := by
  unfold recreationPhase
  simp [h]

/-- Inversion of a non-panicking `MainEventsCleared` iteration: it is the
recreation block followed by the frame phase on the recreated state. -/
theorem loopStep_mec_inv (s : LoopState) (inp : FrameInput) (s' : LoopState)
    (tr : List GpuAction)
    (h : loopStep s .mainEventsCleared inp = .next s' tr) :
    ∃ tr2, framePhase (recreationPhase s inp.newDims).1 inp = .next s' tr2 ∧
      tr = (recreationPhase s inp.newDims).2 ++ tr2 := by
  simp only [loopStep] at h
  rcases hf : framePhase (recreationPhase s inp.newDims).1 inp with _ | _ | ⟨s2, tr2⟩
  · rw [hf] at h
    simp at h
  · rw [hf] at h
    simp at h
  · rw [hf] at h
    simp only [StepResult.next.injEq] at h
    obtain ⟨hs, ht⟩ := h
    subst hs
    exact ⟨tr2, rfl, ht.symm⟩

/-- A failed `acquire_next_image` makes the iteration `panic!`. -/
theorem loopStep_acquire_panics (s : LoopState) (inp : FrameInput)
    (h : inp.acquireOk = false) :
    loopStep s .mainEventsCleared inp = .panicked := by
  unfold loopStep framePhase
  simp [h]

/-! ## Error handling policy

Every fallible library call of every example, in source order, paired with
what the program does when it fails: `unwrapAbort` for `.unwrap()` /
`.expect(..)` / an explicit `panic!`, `recoverContinue` when the error is
handled and execution continues. -/

/-- How an example reacts to a fallible call returning an error. -/
inductive ErrHandler where
  | unwrapAbort
  | recoverContinue
  deriving DecidableEq, Repr

/-- Fallible calls of `src/main.rs`, in source order. -/
def mainFallible : List (String × ErrHandler) :=
  [ ("VulkanLibrary::new", .unwrapAbort),
    ("Instance::new", .unwrapAbort),
    ("enumerate_physical_devices", .unwrapAbort),
    ("physical_devices.next", .unwrapAbort),
    ("queue_family position", .unwrapAbort),
    ("Device::new", .unwrapAbort),
    ("queues.next", .unwrapAbort),
    ("Buffer::from_iter", .unwrapAbort),
    ("cs::load", .unwrapAbort),
    ("entry_point", .unwrapAbort),
    ("into_pipeline_layout_create_info", .unwrapAbort),
    ("PipelineLayout::new", .unwrapAbort),
    ("ComputePipeline::new", .unwrapAbort),
    ("set_layouts.get", .unwrapAbort),
    ("PersistentDescriptorSet::new", .unwrapAbort),
    ("AutoCommandBufferBuilder::primary", .unwrapAbort),
    ("bind_pipeline_compute", .unwrapAbort),
    ("bind_descriptor_sets", .unwrapAbort),
    ("dispatch", .unwrapAbort),
    ("command_buffer_builder.build", .unwrapAbort),
    ("then_execute", .unwrapAbort),
    ("then_signal_fence_and_flush", .unwrapAbort),
    ("future.wait", .unwrapAbort),
    ("gpu_start.elapsed", .unwrapAbort),
    ("cpu_start.elapsed", .unwrapAbort),
    ("data_buffer.read", .unwrapAbort) ]

/-- Fallible calls of `examples/compute-mandelbrot/main.rs`, in source
order. -/
def mandelbrotFallible : List (String × ErrHandler) :=
  [ ("VulkanLibrary::new", .unwrapAbort),
    ("Instance::new", .unwrapAbort),
    ("enumerate_physical_devices", .unwrapAbort),
    ("physical_devices.next", .unwrapAbort),
    ("queue_family position", .unwrapAbort),
    ("Device::new", .unwrapAbort),
    ("queues.next", .unwrapAbort),
    ("cs::load", .unwrapAbort),
    ("entry_point", .unwrapAbort),
    ("into_pipeline_layout_create_info", .unwrapAbort),
    ("PipelineLayout::new", .unwrapAbort),
    ("ComputePipeline::new", .unwrapAbort),
    ("Image::new", .unwrapAbort),
    ("ImageView::new_default", .unwrapAbort),
    ("set_layouts.get", .unwrapAbort),
    ("PersistentDescriptorSet::new", .unwrapAbort),
    ("Buffer::from_iter", .unwrapAbort),
    ("AutoCommandBufferBuilder::primary", .unwrapAbort),
    ("bind_pipeline_compute", .unwrapAbort),
    ("bind_descriptor_sets", .unwrapAbort),
    ("dispatch", .unwrapAbort),
    ("copy_image_to_buffer", .unwrapAbort),
    ("command_buffer_builder.build", .unwrapAbort),
    ("then_execute", .unwrapAbort),
    ("then_signal_fence_and_flush", .unwrapAbort),
    ("future.wait", .unwrapAbort),
    ("buf.read", .unwrapAbort),
    ("ImageBuffer::from_raw", .unwrapAbort),
    ("image_buf.save", .unwrapAbort) ]

/-- Fallible calls of `examples/images/main.rs`, in source order. -/
def imagesFallible : List (String × ErrHandler) :=
  [ ("VulkanLibrary::new", .unwrapAbort),
    ("Instance::new", .unwrapAbort),
    ("enumerate_physical_devices", .unwrapAbort),
    ("physical_devices.next", .unwrapAbort),
    ("queue_family position", .unwrapAbort),
    ("Device::new", .unwrapAbort),
    ("queues.next", .unwrapAbort),
    ("Image::new", .unwrapAbort),
    ("Buffer::from_iter", .unwrapAbort),
    ("AutoCommandBufferBuilder::primary", .unwrapAbort),
    ("clear_color_image", .unwrapAbort),
    ("copy_buffer_to_image", .unwrapAbort),
    ("builder.build", .unwrapAbort),
    ("then_execute", .unwrapAbort),
    ("then_signal_fence_and_flush", .unwrapAbort),
    ("future.wait", .unwrapAbort),
    ("buf.read", .unwrapAbort),
    ("ImageBuffer::from_raw", .unwrapAbort),
    ("image.save", .unwrapAbort) ]

/-- Fallible calls of `examples/graphics/main.rs`, in source order (setup,
helper functions, then the event-loop body).  Exactly two are not
unwrapped: `surface_support`, whose error is converted to `false` by
`unwrap_or(false)`, and the frame loop's `then_signal_fence_and_flush`,
whose error is matched on (`OutOfDate` sets `recreate_swapchain`, any other
error is printed) before the closure continues. -/
def graphicsFallible : List (String × ErrHandler) :=
  [ ("Window::new", .unwrapAbort),
    ("Instance::new", .unwrapAbort),
    ("Surface::from_window", .unwrapAbort),
    ("enumerate_physical_devices", .unwrapAbort),
    ("surface_support", .recoverContinue),
    ("min_by_key device selection", .unwrapAbort),
    ("Device::new", .unwrapAbort),
    ("queues.next", .unwrapAbort),
    ("surface_capabilities", .unwrapAbort),
    ("supported_composite_alpha.next", .unwrapAbort),
    ("surface_formats", .unwrapAbort),
    ("Swapchain::new", .unwrapAbort),
    ("Buffer::from_iter", .unwrapAbort),
    ("single_pass_renderpass", .unwrapAbort),
    ("ImageView::new_default", .unwrapAbort),
    ("Framebuffer::new", .unwrapAbort),
    ("shaders::load_vertex", .unwrapAbort),
    ("shaders::load_fragment", .unwrapAbort),
    ("vs.entry_point", .unwrapAbort),
    ("fs.entry_point", .unwrapAbort),
    ("vertex_input_state definition", .unwrapAbort),
    ("into_pipeline_layout_create_info", .unwrapAbort),
    ("PipelineLayout::new", .unwrapAbort),
    ("Subpass::from", .unwrapAbort),
    ("GraphicsPipeline::new", .unwrapAbort),
    ("AutoCommandBufferBuilder::primary", .unwrapAbort),
    ("begin_render_pass", .unwrapAbort),
    ("bind_pipeline_graphics", .unwrapAbort),
    ("bind_vertex_buffers", .unwrapAbort),
    ("draw", .unwrapAbort),
    ("end_render_pass", .unwrapAbort),
    ("builder.build", .unwrapAbort),
    ("swapchain.recreate", .unwrapAbort),
    ("acquire_next_image", .unwrapAbort),
    ("image_fence.wait", .unwrapAbort),
    ("then_execute", .unwrapAbort),
    ("then_signal_fence_and_flush", .recoverContinue) ]

/-! ## Auxiliary predicates and concrete demonstration values -/

/-- Does a step result continue the event loop (neither exit nor panic)? -/
def StepResult.isNext : StepResult → Bool
  | .next _ _ => true
  | _ => false

/-- Reads of the result buffer happen only after the one-shot fence wait:
every `readBuffer` in the trace is preceded by a `fenceWait`. -/
def waitBeforeRead (tr : List Op) : Prop :=
  ∀ i < tr.length, tr.get? i = some Op.readBuffer →
    ∃ j < i, tr.get? j = some Op.fenceWait

/-- A concrete loop state: three swapchain images, fences stored in slots 0
and 2. -/
def demoState : LoopState :=
  { fences := [some 7, none, some 3]
    previousFenceI := 0
    recreateSwapchain := false
    windowResized := false
    swapchainExtent := (800, 600)
    framebufferExtent := (800, 600)
    viewportExtent := (1024, 1024)
    pipelineExtent := (1024, 1024)
    cmdBufsExtent := (1024, 1024)
    nextFence := 8 }

/-- The state `demoState` with a recorded resize. -/
def demoResizedState : LoopState := { demoState with windowResized := true }

/-- A frame whose acquire and flush both succeed. -/
def demoInput : FrameInput :=
  { newDims := (640, 480), acquireOk := true, imageI := 0,
    suboptimal := false, flush := .ok }

/-- A frame whose `then_signal_fence_and_flush` fails with `OutOfDate`. -/
def demoFlushErrInput : FrameInput := { demoInput with flush := .outOfDate }

/-- A frame whose `acquire_next_image` fails. -/
def demoAcquireErrInput : FrameInput := { demoInput with acquireOk := false }

/-- The state after a successful frame from `demoState`. -/
def demoStateNext : LoopState :=
  { demoState with fences := [some 8, none, some 3], nextFence := 9 }

/-- The actions of that frame. -/
def demoTrace : List GpuAction :=
  [.acquireImage 0, .waitFence 7, .submitDraw 0, .presentImage 0]

/-- The state after a frame from `demoState` whose flush fails with
`OutOfDate`. -/
def demoFlushErrNext : LoopState :=
  { demoState with fences := [none, none, some 3], recreateSwapchain := true }

/-- The state after a successful frame from `demoResizedState`. -/
def demoResizedNext : LoopState :=
  { fences := [some 8, none, some 3]
    previousFenceI := 0
    recreateSwapchain := false
    windowResized := false
    swapchainExtent := (640, 480)
    framebufferExtent := (640, 480)
    viewportExtent := (640, 480)
    pipelineExtent := (640, 480)
    cmdBufsExtent := (640, 480)
    nextFence := 9 }

/-- The actions of that frame: full recreation, then the frame itself. -/
def demoResizedTrace : List GpuAction :=
  [.recreateSwapchainAct (640, 480), .recreateFramebuffersAct (640, 480),
    .rebuildPipelineAct (640, 480), .recordCommandBuffersAct (640, 480),
    .acquireImage 0, .waitFence 7, .submitDraw 0, .presentImage 0]

/-! ## The claims -/

/-- C1: in the compute-dispatch timing example, for every index
`i < 65536`, the value read back from `data_buffer` equals 12 times the
initial value `i`, and equals the CPU-computed value, so the element-wise
`assert_eq!` between the GPU buffer and the CPU-transformed vector never
fails. -/
theorem C1_gpu_cpu_assert (i : Nat) (h : i < dataLen) :
    gpuComputed i = 12 * dataBufferInit i ∧ gpuComputed i = cpuComputed i := by
  obtain ⟨h1, h2⟩ := gpu_eq_cpu i h
  refine ⟨?_, h1⟩
  rw [h1, h2]
  rfl

/-- Witness for C1 at index 5. -/
theorem C1_witness :
    5 < dataLen ∧
      (gpuComputed 5 = 12 * dataBufferInit 5 ∧ gpuComputed 5 = cpuComputed 5) :=
  ⟨by decide, C1_gpu_cpu_assert 5 (by decide)⟩

/-- C5: in every example that reads results back (`src/main.rs`,
`compute-mandelbrot`, `images`), the trace contains a buffer read, and
every buffer read is preceded by the one-shot fence wait. -/
theorem C5_read_after_fence_wait :
    (Op.readBuffer ∈ mainOps ∧ waitBeforeRead mainOps) ∧
      (Op.readBuffer ∈ mandelbrotOps ∧ waitBeforeRead mandelbrotOps) ∧
      (Op.readBuffer ∈ imagesOps ∧ waitBeforeRead imagesOps) := by
  refine ⟨⟨by decide, ?_⟩, ⟨by decide, ?_⟩, ⟨by decide, ?_⟩⟩ <;>
    · unfold waitBeforeRead
      decide

/-- C6 counterexample: `src/main.rs` is not a source-to-destination buffer
copy with a round-trip identity: there is only one buffer, and its content
at index 1 after the GPU pass is 12, not the original value 1, so "the
destination buffer's contents equal the source buffer's contents" fails at
index 1. -/
theorem C6_counterexample :
    gpuComputed 1 ≠ dataBufferInit 1 ∧ gpuComputed 1 = 12 ∧
      dataBufferInit 1 = 1 := by decide

/-- C6 amended: `src/main.rs` is a compute-dispatch program over a single
data buffer initialised with `0..65536`; the GPU transforms it in place and
the program asserts the transformed buffer equals the CPU-transformed
vector (each initial element times 12), which holds at every index. -/
theorem C6_amended_dispatch_assert (i : Nat) (h : i < dataLen) :
    gpuComputed i = cpuComputed i ∧ cpuComputed i = 12 * dataBufferInit i := by
  obtain ⟨h1, h2⟩ := gpu_eq_cpu i h
  exact ⟨h1, by rw [h2]; rfl⟩

/-- Witness for the amended C6 at index 3. -/
theorem C6_witness :
    3 < dataLen ∧
      (gpuComputed 3 = cpuComputed 3 ∧ cpuComputed 3 = 12 * dataBufferInit 3) :=
  ⟨by decide, C6_amended_dispatch_assert 3 (by decide)⟩

/-- C7 counterexample: the example at `src/main.rs` terminates producing
neither a PNG file nor a window; its observable output is stdout text
(timings and the verification message). -/
theorem C7_counterexample :
    producesPng mainOps = false ∧ opensWindow mainOps = false ∧
      Op.printTimings ∈ mainOps := by decide

/-- C7 amended: the mandelbrot example writes `mandelbrot.png`, the images
example writes `image.png`, the windowed example runs a window rendering
loop, and the remaining example (`src/main.rs`) produces neither a PNG nor
a window but only stdout text. -/
theorem C7_amended_outputs :
    Op.savePng "mandelbrot.png" ∈ mandelbrotOps ∧
      Op.savePng "image.png" ∈ imagesOps ∧
      opensWindow graphicsOps = true ∧
      producesPng mainOps = false ∧ opensWindow mainOps = false ∧
      Op.printTimings ∈ mainOps ∧ Op.assertGpuEqCpu ∈ mainOps := by decide

/-- C9: the pixel iterator of the images example yields 255 at byte offsets
congruent to 0 or 3 mod 4 and 0 at offsets congruent to 1 or 2 mod 4, and
its `unreachable!` arm is never taken. -/
theorem C9_pixel_iterator (i : Nat) (h : i < pixelDataLen) :
    (i % 4 = 0 ∨ i % 4 = 3 → pixelData i = some 255) ∧
      (i % 4 = 1 ∨ i % 4 = 2 → pixelData i = some 0) ∧
      pixelData i ≠ none := by
  have h4 : i % 4 = 0 ∨ i % 4 = 1 ∨ i % 4 = 2 ∨ i % 4 = 3 := by omega
  rcases h4 with h4 | h4 | h4 | h4 <;>
    refine ⟨fun hc => ?_, fun hc => ?_, ?_⟩ <;>
    first
      | rcases hc with hc | hc <;> omega
      | simp [pixelData, h4]

/-- Witness for C9 at offsets 6 (green byte) and spot values around it. -/
theorem C9_witness :
    6 < pixelDataLen ∧
      ((6 % 4 = 0 ∨ 6 % 4 = 3 → pixelData 6 = some 255) ∧
        (6 % 4 = 1 ∨ 6 % 4 = 2 → pixelData 6 = some 0) ∧
        pixelData 6 ≠ none) :=
  ⟨by decide, C9_pixel_iterator 6 (by decide)⟩

/-- C10: constructing a `Triangle` from three points and moving its
vertices out yields exactly three vertices whose positions are the three
points in order. -/
theorem C10_triangle_roundtrip {α : Type} (p1 p2 p3 : α) :
    (Triangle.new p1 p2 p3).move_verticies_out.map Vtx.position
        = [p1, p2, p3] ∧
      (Triangle.new p1 p2 p3).move_verticies_out.length = 3 :=
  ⟨rfl, rfl⟩

/-- C2 counterexample: in the windowed example, when
`then_signal_fence_and_flush` returns the error `OutOfDate`, the event-loop
iteration does not terminate the process: it continues with an updated
state, so not every failing fallible call aborts via unwrap/expect. -/
theorem C2_counterexample :
    demoFlushErrInput.flush = FlushResult.outOfDate ∧
      (loopStep demoState .mainEventsCleared demoFlushErrInput).isNext
        = true := by decide

/-- C2 amended: every fallible call in the three non-windowed examples
aborts on failure via unwrap/expect, and so do all of the windowed
example's calls except two: `surface_support` (whose error is converted to
`false` by `unwrap_or`) and the frame loop's `then_signal_fence_and_flush`
(whose error is handled: `OutOfDate` requests swapchain recreation, any
other error is printed, and the loop continues).  `acquire_next_image`
failure still panics. -/
theorem C2_error_policy :
    ((mainFallible ++ mandelbrotFallible ++ imagesFallible).all
        (fun c => c.2 == ErrHandler.unwrapAbort)) = true ∧
      ("surface_support", ErrHandler.recoverContinue) ∈ graphicsFallible ∧
      ("then_signal_fence_and_flush", ErrHandler.recoverContinue)
        ∈ graphicsFallible ∧
      (graphicsFallible.all (fun c => c.2 == ErrHandler.unwrapAbort
        || c.1 == "surface_support"
        || c.1 == "then_signal_fence_and_flush")) = true ∧
      (∀ s inp, inp.acquireOk = false →
        loopStep s .mainEventsCleared inp = .panicked) ∧
      (∀ s inp s' tr, inp.flush = .outOfDate →
        loopStep s .mainEventsCleared inp = .next s' tr →
        s'.recreateSwapchain = true) := by
  refine ⟨by decide, by decide, by decide, by decide, ?_, ?_⟩
  · intro s inp h
    exact loopStep_acquire_panics s inp h
  · intro s inp s' tr hfl h
    obtain ⟨tr2, hf, -⟩ := loopStep_mec_inv s inp s' tr h
    obtain ⟨-, -, -, -, -, -, -, -, -, hrc, -⟩ := framePhase_inv _ _ _ _ hf
    rw [hrc, hfl]
    simp

/-- Witness for the amended C2: from `demoState`, a failed acquire panics,
and a frame whose flush fails with `OutOfDate` continues with the
recreate-swapchain flag set. -/
theorem C2_witness :
    loopStep demoState .mainEventsCleared demoAcquireErrInput
        = .panicked ∧
      demoFlushErrNext.recreateSwapchain = true :=
  ⟨C2_error_policy.2.2.2.2.1 demoState demoAcquireErrInput rfl,
    C2_error_policy.2.2.2.2.2 demoState demoFlushErrInput demoFlushErrNext
      demoTrace rfl rfl⟩

/-- C3: the in-flight fence vector starts with one (empty) slot per
swapchain image; no event-loop iteration changes its length; a
`MainEventsCleared` iteration stores the frame's fence slot at the acquired
image index; and when a fence is already stored at that index, the trace
waits on it before submitting the frame's work. -/
theorem C3_fence_vector_invariant :
    (∀ n d, (initLoopState n d).fences.length = n) ∧
      (∀ s e inp s' tr, loopStep s e inp = .next s' tr →
        s'.fences.length = s.fences.length) ∧
      (∀ s inp s' tr, loopStep s .mainEventsCleared inp = .next s' tr →
        (∃ v, s'.fences = s.fences.set inp.imageI v) ∧
          ∀ f, s.fences.get? inp.imageI = some (some f) →
            ∃ pre post,
              tr = pre ++ .waitFence f :: .submitDraw inp.imageI :: post) := by
  have key : ∀ s inp s' tr,
      loopStep s .mainEventsCleared inp = .next s' tr →
      (∃ v, s'.fences = s.fences.set inp.imageI v) ∧
        ∀ f, s.fences.get? inp.imageI = some (some f) →
          ∃ pre post,
            tr = pre ++ .waitFence f :: .submitDraw inp.imageI :: post := by
    intro s inp s' tr h
    obtain ⟨tr2, hf, htr⟩ := loopStep_mec_inv s inp s' tr h
    obtain ⟨-, ⟨v, hfv⟩, -, -, -, -, -, -, -, -, slot, hslot, htr2⟩ :=
      framePhase_inv _ _ _ _ hf
    have hrpf := (recreationPhase_fences s inp.newDims).1
    constructor
    · exact ⟨v, by rw [hfv, hrpf]⟩
    · intro f hsome
      rw [hrpf] at hslot
      have hsl : slot = some f := by
        have := hslot.symm.trans hsome
        simpa using this
      refine ⟨(recreationPhase s inp.newDims).2 ++ [.acquireImage inp.imageI],
        [.presentImage inp.imageI], ?_⟩
      rw [htr, htr2, hsl]
      simp [waitActions]
  refine ⟨?_, ?_, key⟩
  · intro n d
    simp [initLoopState]
  · intro s e inp s' tr h
    cases e
    · simp [loopStep] at h
    · simp only [loopStep, StepResult.next.injEq] at h
      obtain ⟨hs, -⟩ := h
      rw [← hs]
    · obtain ⟨⟨v, hfv⟩, -⟩ := key s inp s' tr h
      rw [hfv]
      simp
    · simp only [loopStep, StepResult.next.injEq] at h
      obtain ⟨hs, -⟩ := h
      rw [← hs]

/-- Witness for C3: from `demoState` with image index 0 (which holds fence
7), the frame stores a new fence slot value at index 0 and its trace waits
on fence 7 before submitting for image 0. -/
theorem C3_witness :
    (∃ v, demoStateNext.fences = demoState.fences.set demoInput.imageI v) ∧
      ∀ f, demoState.fences.get? demoInput.imageI = some (some f) →
        ∃ pre post,
          demoTrace = pre ++ .waitFence f :: .submitDraw demoInput.imageI :: post :=
  C3_fence_vector_invariant.2.2 demoState demoInput demoStateNext demoTrace rfl

/-- C4: when a resize has been recorded, the next `MainEventsCleared`
iteration recreates the swapchain with the window's new dimensions,
rebuilds the framebuffers, the pipeline (viewport extent set to the new
dimensions) and the command buffers from them, clears the `window_resized`
flag, and leaves `recreate_swapchain` cleared unless this same iteration's
acquire was suboptimal or its flush returned `OutOfDate`. -/
theorem C4_resize_recreation (s : LoopState) (inp : FrameInput)
    (s' : LoopState) (tr : List GpuAction) (hwr : s.windowResized = true)
    (h : loopStep s .mainEventsCleared inp = .next s' tr) :
    s'.swapchainExtent = inp.newDims ∧
      s'.framebufferExtent = inp.newDims ∧
      s'.viewportExtent = inp.newDims ∧
      s'.pipelineExtent = inp.newDims ∧
      s'.cmdBufsExtent = inp.newDims ∧
      s'.windowResized = false ∧
      s'.recreateSwapchain
        = (inp.suboptimal || decide (inp.flush = .outOfDate)) ∧
      ∃ rest, tr = .recreateSwapchainAct inp.newDims ::
        .recreateFramebuffersAct inp.newDims ::
        .rebuildPipelineAct inp.newDims ::
        .recordCommandBuffersAct inp.newDims :: rest := by
  obtain ⟨tr2, hf, htr⟩ := loopStep_mec_inv s inp s' tr h
  obtain ⟨-, -, -, hw, hsw, hfb, hvp, hpl, hcb, hrc, -⟩ :=
    framePhase_inv _ _ _ _ hf
  have hrp := recreationPhase_resized s inp.newDims hwr
  refine ⟨?_, ?_, ?_, ?_, ?_, ?_, ?_, ⟨tr2, ?_⟩⟩
  · rw [hsw, hrp]
  · rw [hfb, hrp]
  · rw [hvp, hrp]
  · rw [hpl, hrp]
  · rw [hcb, hrp]
  · rw [hw, hrp]
  · rw [hrc, hrp]
    simp
  · rw [htr, hrp]
    simp

/-- Witness for C4: from `demoResizedState` with new window size 640x480
and a clean frame, the iteration rebuilds everything at 640x480, clears
both flags, and its trace starts with the four recreation actions. -/
theorem C4_witness :
    demoResizedNext.swapchainExtent = demoInput.newDims ∧
      demoResizedNext.framebufferExtent = demoInput.newDims ∧
      demoResizedNext.viewportExtent = demoInput.newDims ∧
      demoResizedNext.pipelineExtent = demoInput.newDims ∧
      demoResizedNext.cmdBufsExtent = demoInput.newDims ∧
      demoResizedNext.windowResized = false ∧
      demoResizedNext.recreateSwapchain
        = (demoInput.suboptimal || decide (demoInput.flush = .outOfDate)) ∧
      ∃ rest, demoResizedTrace = .recreateSwapchainAct demoInput.newDims ::
        .recreateFramebuffersAct demoInput.newDims ::
        .rebuildPipelineAct demoInput.newDims ::
        .recordCommandBuffersAct demoInput.newDims :: rest :=
  C4_resize_recreation demoResizedState demoInput demoResizedNext
    demoResizedTrace rfl rfl

/-- C8: the non-windowed examples select the first queue family whose flags
contain GRAPHICS (no earlier family has it); the windowed example selects
only a device supporting the swapchain extension together with a queue
family that has GRAPHICS and supports presentation to the surface. -/
theorem C8_queue_family_selection :
    (∀ fams i, selectQueueFamily fams = some i →
      (∃ q, fams.get? i = some q ∧ q.graphics = true) ∧
        ∀ j, j < i → ∀ q, fams.get? j = some q → q.graphics = false) ∧
      (∀ devs p i, selectDeviceAndFamily devs = some (p, i) →
        p.khrSwapchain = true ∧
          ∃ q, p.families.get? i = some q ∧ q.graphics = true ∧
            q.surfaceSupport.getD false = true) := by
  constructor
  · intro fams i h
    exact position_spec _ _ _ h
  · intro devs p i h
    unfold selectDeviceAndFamily at h
    have hmem := minByKey_mem _ _ _ h
    rw [List.mem_filterMap] at hmem
    obtain ⟨p0, hp0mem, hp0⟩ := hmem
    unfold deviceCandidate at hp0
    rcases hpos : position familyOk p0.families with _ | k
    · rw [hpos] at hp0
      simp at hp0
    · rw [hpos] at hp0
      simp at hp0
      obtain ⟨hpe, hke⟩ := hp0
      subst hpe
      subst hke
      have hfil := List.mem_filter.mp hp0mem
      refine ⟨by simpa using hfil.2, ?_⟩
      obtain ⟨⟨q, hq, hqok⟩, -⟩ := position_spec familyOk p0.families _ hpos
      unfold familyOk at hqok
      rw [Bool.and_eq_true] at hqok
      exact ⟨q, hq, hqok.1, hqok.2⟩

/-- Witness for C8: a concrete family list whose first GRAPHICS-capable
family has index 1, and a single-device list whose selected pair is family
index 1 with graphics and surface support. -/
theorem C8_witness :
    ((∃ q, [(⟨false⟩ : QueueFlags), ⟨true⟩, ⟨true⟩].get? 1 = some q ∧
        q.graphics = true) ∧
      ∀ j, j < 1 → ∀ q,
        [(⟨false⟩ : QueueFlags), ⟨true⟩, ⟨true⟩].get? j = some q →
          q.graphics = false) ∧
      ((⟨true, [⟨false, some true⟩, ⟨true, some true⟩], .discreteGpu⟩
          : PhysDev).khrSwapchain = true ∧
        ∃ q, (⟨true, [⟨false, some true⟩, ⟨true, some true⟩], .discreteGpu⟩
          : PhysDev).families.get? 1 = some q ∧ q.graphics = true ∧
          q.surfaceSupport.getD false = true) :=
  ⟨C8_queue_family_selection.1 [⟨false⟩, ⟨true⟩, ⟨true⟩] 1 rfl,
    C8_queue_family_selection.2
      [⟨true, [⟨false, some true⟩, ⟨true, some true⟩], .discreteGpu⟩]
      ⟨true, [⟨false, some true⟩, ⟨true, some true⟩], .discreteGpu⟩ 1 rfl⟩
